import Mathlib

/-!
Shallow embedding of the ssd1306 display driver core (src/lib.rs and
src/mode/terminal.rs).

Machine integers are modelled as `Nat` (all the arithmetic the claims touch
stays far below the `u8`/`u32`/`usize` overflow bounds, except where noted).
The 1024-byte framebuffer array is modelled as a function `Nat → Nat`
together with the side condition that every byte is `< 256`; a Rust panic
(out-of-bounds index, underflowing subtraction) is modelled as `Option.none`.
Device traffic (commands and data blocks sent through the `DisplayInterface`)
is modelled as an appended trace of abstract commands; the transport itself is
modelled as always succeeding, which is the regime every claim below speaks
about (the only failures the claims exercise come from the driver itself:
bounds rejection and the uninitialized cursor).
-/

/-- Modelled from the spec: the `DisplaySize` enum lives in `displaysize.rs`,
which is not part of the two provided source files.  `src/lib.rs`'s `flush`
matches exactly the variants `Display128x64` and `Display128x32`, so those are
the supported geometries of the framebuffer engine. -/
inductive DisplaySize
  | display128x64
  | display128x32
deriving DecidableEq

/-- Modelled from the spec: `DisplaySize::dimensions()` (in the missing
`displaysize.rs`) returns the pixel (width, height) of the named geometry. -/
def DisplaySize.dimensions : DisplaySize → Nat × Nat
  | .display128x64 => (128, 64)
  | .display128x32 => (128, 32)

/-- The `SSD1306` struct of `src/lib.rs`: the 1024-byte framebuffer (as a
function from byte index to byte value) and the chosen geometry.  The
interface field is replaced by the command trace produced by `flush`. -/
structure SSD1306 where
  buffer : Nat → Nat
  display_size : DisplaySize

/-- Bytes of a `u8` array are below 256; the framebuffer model carries this as
a side condition on theorems that need it. -/
def SSD1306.wf (s : SSD1306) : Prop :=
  ∀ i, s.buffer i < 256

/-- `SSD1306::new`: zeroed buffer. -/
def SSD1306.new (display_size : DisplaySize) : SSD1306 :=
  { buffer := fun _ => 0, display_size := display_size }

/-- `SSD1306::clear`: zero the whole buffer, no device I/O. -/
def SSD1306.clear (s : SSD1306) : SSD1306 :=
  { s with buffer := fun _ => 0 }

/-- The byte index `set_pixel` computes: `(y / 8) * display_width + x`. -/
def SSD1306.pixel_index (s : SSD1306) (x y : Nat) : Nat :=
  y / 8 * (s.display_size.dimensions).1 + x

/-- `SSD1306::set_pixel(x, y, value)` from `src/lib.rs` lines 78-89.
The code indexes `self.buffer[(y/8)*width + x]` with no bounds check against
the geometry; indexing a Rust array out of bounds panics, modelled as `none`.
`1 << (y % 8)` is `2 ^ (y % 8)`; `!bit` on a `u8` is `255 ^^^ bit`. -/
def SSD1306.set_pixel (s : SSD1306) (x y value : Nat) : Option SSD1306 :=
  let idx := s.pixel_index x y
  if idx < 1024 then
    let bit := 2 ^ (y % 8)
    let old := s.buffer idx
    let new := if value = 0 then old &&& (255 ^^^ bit) else old ||| bit
    some { s with buffer := fun i => if i = idx then new else s.buffer i }
  else
    none

/-- Abstract device traffic: the two addressing commands `flush` sends and a
raw data block (`send_data`). -/
inductive Cmd
  | columnAddress (colStart colEnd : Nat)
  | pageAddress (pageStart pageEnd : Nat)
  | data (bytes : List Nat)
deriving DecidableEq

/-- Modelled from the spec: `Command::PageAddress` takes values of the `Page`
type, and `(display_height - 1).into()` converts a pixel row to its page via
division by 8 (`command.rs` is not among the provided sources; the spec gives
the resulting range as `[0, height/8 - 1]`). -/
def pageOfRow (v : Nat) : Nat := v / 8

/-- The slice of the buffer that `flush` sends: the whole 1024-byte array for
128x64, `buffer[0..512]` for 128x32. -/
def SSD1306.flushData (s : SSD1306) : List Nat :=
  match s.display_size with
  | .display128x64 => (List.range 1024).map s.buffer
  | .display128x32 => (List.range 512).map s.buffer

/-- `SSD1306::flush` from `src/lib.rs` lines 66-76, as the trace of device
traffic it issues: `ColumnAddress(0, width-1)`, `PageAddress(0.into(),
(height-1).into())`, then one `send_data` with the buffer slice. -/
def SSD1306.flush (s : SSD1306) : List Cmd :=
  let dims := s.display_size.dimensions
  [ Cmd.columnAddress 0 (dims.1 - 1),
    Cmd.pageAddress (pageOfRow 0) (pageOfRow (dims.2 - 1)),
    Cmd.data s.flushData ]

/-- A bitmap-display character (`src/mode/terminal.rs` lines 32-41): an 8-byte
column bitmap or a control marker. -/
inductive BitmapCharacter
  | bitmapped (bytes : List Nat)
  | newline
  | carriageReturn
deriving DecidableEq

/-- `Cursor` (`src/mode/terminal.rs` lines 162-167): logical character-cell
position plus the grid dimensions in cells. -/
structure Cursor where
  col : Nat
  row : Nat
  width : Nat
  height : Nat
deriving DecidableEq

/-- `Cursor::new(width_pixels, height_pixels)`: grid dimensions are the pixel
dimensions divided by 8, position starts at (0, 0). -/
def Cursor.new (width_pixels height_pixels : Nat) : Cursor :=
  { col := 0, row := 0, width := width_pixels / 8, height := height_pixels / 8 }

/-- `Cursor::advance` (`src/mode/terminal.rs` lines 183-191): column becomes
`(col + 1) % width`; on wrap to 0 the row becomes `(row + 1) % height` and a
`CursorWrapEvent` carrying the new row is returned. -/
def Cursor.advance (c : Cursor) : Cursor × Option Nat :=
  let col := (c.col + 1) % c.width
  if col = 0 then
    let row := (c.row + 1) % c.height
    ({ c with col := col, row := row }, some row)
  else
    ({ c with col := col }, none)

/-- `Cursor::set_position` (`src/mode/terminal.rs` lines 195-198): clamps each
coordinate to the last valid cell with `min`.  (On a `u8`, `width - 1` with
`width = 0` would panic; the claims about this helper assume a nonempty grid.) -/
def Cursor.set_position (c : Cursor) (col row : Nat) : Cursor :=
  { c with col := min col (c.width - 1), row := min row (c.height - 1) }

/-- `Cursor::get_position`. -/
def Cursor.get_position (c : Cursor) : Nat × Nat := (c.col, c.row)

/-- `Cursor::get_dimensions`. -/
def Cursor.get_dimensions (c : Cursor) : Nat × Nat := (c.width, c.height)

/-- `Cursor::get_remaining_columns_in_line`: `width - col`. -/
def Cursor.get_remaining_columns_in_line (c : Cursor) : Nat := c.width - c.col

/-- Device traffic issued by `TerminalMode` through `DisplayProperties`:
column-pointer command, row-pointer command, and an 8-byte glyph data block. -/
inductive PCmd
  | setColumn (col : Nat)
  | setRow (row : Nat)
  | draw (bytes : List Nat)
deriving DecidableEq

/-- `TerminalMode`'s state: the optional cursor (`None` until `reset_pos` has
run) and the trace of device traffic issued so far (standing in for the
`DisplayProperties`/interface pair, modelled as an always-successful
transport). -/
structure TerminalMode where
  trace : List PCmd
  cursor : Option Cursor
deriving DecidableEq

/-- `DisplayProperties::draw`: send one glyph data block. -/
def TerminalMode.propDraw (s : TerminalMode) (bytes : List Nat) : TerminalMode :=
  { s with trace := s.trace ++ [PCmd.draw bytes] }

/-- `DisplayProperties::set_column`. -/
def TerminalMode.propSetColumn (s : TerminalMode) (col : Nat) : TerminalMode :=
  { s with trace := s.trace ++ [PCmd.setColumn col] }

/-- `DisplayProperties::set_row`. -/
def TerminalMode.propSetRow (s : TerminalMode) (row : Nat) : TerminalMode :=
  { s with trace := s.trace ++ [PCmd.setRow row] }

/-- Fallible `TerminalMode` operations return the updated state together with
a success flag (`true` = `Ok(())`); on failure the state keeps whatever
mutations and device writes happened before the failing step, exactly as the
Rust `&mut self` methods do when they return `Err`. -/
def TerminalMode.advance_cursor (s : TerminalMode) : TerminalMode × Bool :=
  match s.cursor with
  | none => (s, false)
  | some cur =>
    let (cur2, ev) := cur.advance
    let s2 := { s with cursor := some cur2 }
    match ev with
    | some new_row => (s2.propSetRow (new_row * 8), true)
    | none => (s2, true)

/-- The loop body of the `Newline` arm of `print_char`: draw `n` blank glyphs,
advancing the cursor after each (`src/mode/terminal.rs` lines 305-309). -/
def TerminalMode.drawBlanks (s : TerminalMode) : Nat → TerminalMode × Bool
  | 0 => (s, true)
  | n + 1 =>
    let s1 := s.propDraw [0x00, 0x00, 0x00, 0x00, 0x00, 0x00, 0x00, 0x00]
    let (s2, ok) := s1.advance_cursor
    if ok then s2.drawBlanks n else (s2, false)

/-- `TerminalMode::print_char` (`src/mode/terminal.rs` lines 292-319), with
the character already looked up through `to_bitmap`.  `Bitmapped`: draw the 8
bytes, then advance the cursor (which fails if the cursor is uninitialized —
after the draw).  `Newline`: draw `width - col` blank glyphs through the same
advance path.  `CarriageReturn`: issue `set_column(0)`, then clamp-set the
cursor to column 0 of the current row. -/
def TerminalMode.printBitmapChar (s : TerminalMode) : BitmapCharacter → TerminalMode × Bool
  | .bitmapped bytes =>
    (s.propDraw bytes).advance_cursor
  | .newline =>
    match s.cursor with
    | none => (s, false)
    | some cur => s.drawBlanks cur.get_remaining_columns_in_line
  | .carriageReturn =>
    let s1 := s.propSetColumn 0
    match s1.cursor with
    | none => (s1, false)
    | some cur =>
      ({ s1 with cursor := some (cur.set_position 0 (cur.get_position).2) }, true)

/-- `TerminalMode::set_position` (`src/mode/terminal.rs` lines 345-355): fails
when the cursor is uninitialized or the cell is out of range, before any
device write; otherwise issues `set_column(column*8)`, `set_row(row*8)` and
updates the cursor through the clamping helper. -/
def TerminalMode.set_position (s : TerminalMode) (column row : Nat) : TerminalMode × Bool :=
  match s.cursor with
  | none => (s, false)
  | some cur =>
    if cur.width ≤ column ∨ cur.height ≤ row then
      (s, false)
    else
      let s1 := s.propSetColumn (column * 8)
      let s2 := s1.propSetRow (row * 8)
      ({ s2 with cursor := some (cur.set_position column row) }, true)

/-- `TerminalMode::reset_pos` (`src/mode/terminal.rs` lines 358-366): zero the
device pointers and install a fresh cursor for the given pixel dimensions. -/
def TerminalMode.reset_pos (s : TerminalMode) (display_width display_height : Nat) :
    TerminalMode × Bool :=
  let s1 := s.propSetColumn 0
  let s2 := s1.propSetRow 0
  ({ s2 with cursor := some (Cursor.new display_width display_height) }, true)

/-- `CharacterBitmap<char>::to_bitmap` for `TerminalMode`
(`src/mode/terminal.rs` lines 54-156): the 7x7 font table, with `'\n'` and
`'\r'` mapped to the control markers and unknown characters to a blank glyph. -/
def to_bitmap (input : Char) : BitmapCharacter :=
  match input with
  | '\n' => .newline
  | '\r' => .carriageReturn
  | '!' => .bitmapped [0x00, 0x00, 0x5F, 0x00, 0x00, 0x00, 0x00, 0x00]
  | '"' => .bitmapped [0x00, 0x07, 0x00, 0x07, 0x00, 0x00, 0x00, 0x00]
  | '#' => .bitmapped [0x14, 0x7F, 0x14, 0x7F, 0x14, 0x00, 0x00, 0x00]
  | '$' => .bitmapped [0x24, 0x2A, 0x7F, 0x2A, 0x12, 0x00, 0x00, 0x00]
  | '%' => .bitmapped [0x23, 0x13, 0x08, 0x64, 0x62, 0x00, 0x00, 0x00]
  | '&' => .bitmapped [0x36, 0x49, 0x55, 0x22, 0x50, 0x00, 0x00, 0x00]
  | '\'' => .bitmapped [0x00, 0x05, 0x03, 0x00, 0x00, 0x00, 0x00, 0x00]
  | '(' => .bitmapped [0x00, 0x1C, 0x22, 0x41, 0x00, 0x00, 0x00, 0x00]
  | ')' => .bitmapped [0x00, 0x41, 0x22, 0x1C, 0x00, 0x00, 0x00, 0x00]
  | '*' => .bitmapped [0x08, 0x2A, 0x1C, 0x2A, 0x08, 0x00, 0x00, 0x00]
  | '+' => .bitmapped [0x08, 0x08, 0x3E, 0x08, 0x08, 0x00, 0x00, 0x00]
  | ',' => .bitmapped [0x00, 0x50, 0x30, 0x00, 0x00, 0x00, 0x00, 0x00]
  | '-' => .bitmapped [0x00, 0x18, 0x18, 0x18, 0x18, 0x18, 0x00, 0x00]
  | '.' => .bitmapped [0x00, 0x60, 0x60, 0x00, 0x00, 0x00, 0x00, 0x00]
  | '/' => .bitmapped [0x20, 0x10, 0x08, 0x04, 0x02, 0x00, 0x00, 0x00]
  | '0' => .bitmapped [0x1C, 0x3E, 0x61, 0x41, 0x43, 0x3E, 0x1C, 0x00]
  | '1' => .bitmapped [0x40, 0x42, 0x7F, 0x7F, 0x40, 0x40, 0x00, 0x00]
  | '2' => .bitmapped [0x62, 0x73, 0x79, 0x59, 0x5D, 0x4F, 0x46, 0x00]
  | '3' => .bitmapped [0x20, 0x61, 0x49, 0x4D, 0x4F, 0x7B, 0x31, 0x00]
  | '4' => .bitmapped [0x18, 0x1C, 0x16, 0x13, 0x7F, 0x7F, 0x10, 0x00]
  | '5' => .bitmapped [0x27, 0x67, 0x45, 0x45, 0x45, 0x7D, 0x38, 0x00]
  | '6' => .bitmapped [0x3C, 0x7E, 0x4B, 0x49, 0x49, 0x79, 0x30, 0x00]
  | '7' => .bitmapped [0x03, 0x03, 0x71, 0x79, 0x0D, 0x07, 0x03, 0x00]
  | '8' => .bitmapped [0x36, 0x7F, 0x49, 0x49, 0x49, 0x7F, 0x36, 0x00]
  | '9' => .bitmapped [0x06, 0x4F, 0x49, 0x49, 0x69, 0x3F, 0x1E, 0x00]
  | ':' => .bitmapped [0x00, 0x36, 0x36, 0x00, 0x00, 0x00, 0x00, 0x00]
  | ';' => .bitmapped [0x00, 0x56, 0x36, 0x00, 0x00, 0x00, 0x00, 0x00]
  | '<' => .bitmapped [0x00, 0x08, 0x14, 0x22, 0x41, 0x00, 0x00, 0x00]
  | '=' => .bitmapped [0x14, 0x14, 0x14, 0x14, 0x14, 0x00, 0x00, 0x00]
  | '>' => .bitmapped [0x41, 0x22, 0x14, 0x08, 0x00, 0x00, 0x00, 0x00]
  | '?' => .bitmapped [0x02, 0x01, 0x51, 0x09, 0x06, 0x00, 0x00, 0x00]
  | '@' => .bitmapped [0x32, 0x49, 0x79, 0x41, 0x3E, 0x00, 0x00, 0x00]
  | 'A' => .bitmapped [0x7E, 0x11, 0x11, 0x11, 0x7E, 0x00, 0x00, 0x00]
  | 'B' => .bitmapped [0x7F, 0x49, 0x49, 0x49, 0x36, 0x00, 0x00, 0x00]
  | 'C' => .bitmapped [0x3E, 0x41, 0x41, 0x41, 0x22, 0x00, 0x00, 0x00]
  | 'D' => .bitmapped [0x7F, 0x7F, 0x41, 0x41, 0x63, 0x3E, 0x1C, 0x00]
  | 'E' => .bitmapped [0x7F, 0x49, 0x49, 0x49, 0x41, 0x00, 0x00, 0x00]
  | 'F' => .bitmapped [0x7F, 0x09, 0x09, 0x01, 0x01, 0x00, 0x00, 0x00]
  | 'G' => .bitmapped [0x3E, 0x41, 0x41, 0x51, 0x32, 0x00, 0x00, 0x00]
  | 'H' => .bitmapped [0x7F, 0x08, 0x08, 0x08, 0x7F, 0x00, 0x00, 0x00]
  | 'I' => .bitmapped [0x00, 0x41, 0x7F, 0x41, 0x00, 0x00, 0x00, 0x00]
  | 'J' => .bitmapped [0x20, 0x40, 0x41, 0x3F, 0x01, 0x00, 0x00, 0x00]
  | 'K' => .bitmapped [0x7F, 0x08, 0x14, 0x22, 0x41, 0x00, 0x00, 0x00]
  | 'L' => .bitmapped [0x7F, 0x7F, 0x40, 0x40, 0x40, 0x40, 0x00, 0x00]
  | 'M' => .bitmapped [0x7F, 0x02, 0x04, 0x02, 0x7F, 0x00, 0x00, 0x00]
  | 'N' => .bitmapped [0x7F, 0x04, 0x08, 0x10, 0x7F, 0x00, 0x00, 0x00]
  | 'O' => .bitmapped [0x3E, 0x7F, 0x41, 0x41, 0x41, 0x7F, 0x3E, 0x00]
  | 'P' => .bitmapped [0x7F, 0x09, 0x09, 0x09, 0x06, 0x00, 0x00, 0x00]
  | 'Q' => .bitmapped [0x3E, 0x41, 0x51, 0x21, 0x5E, 0x00, 0x00, 0x00]
  | 'R' => .bitmapped [0x7F, 0x7F, 0x11, 0x31, 0x79, 0x6F, 0x4E, 0x00]
  | 'S' => .bitmapped [0x46, 0x49, 0x49, 0x49, 0x31, 0x00, 0x00, 0x00]
  | 'T' => .bitmapped [0x01, 0x01, 0x7F, 0x01, 0x01, 0x00, 0x00, 0x00]
  | 'U' => .bitmapped [0x3F, 0x40, 0x40, 0x40, 0x3F, 0x00, 0x00, 0x00]
  | 'V' => .bitmapped [0x1F, 0x20, 0x40, 0x20, 0x1F, 0x00, 0x00, 0x00]
  | 'W' => .bitmapped [0x7F, 0x7F, 0x38, 0x1C, 0x38, 0x7F, 0x7F, 0x00]
  | 'X' => .bitmapped [0x63, 0x14, 0x08, 0x14, 0x63, 0x00, 0x00, 0x00]
  | 'Y' => .bitmapped [0x03, 0x04, 0x78, 0x04, 0x03, 0x00, 0x00, 0x00]
  | 'Z' => .bitmapped [0x61, 0x51, 0x49, 0x45, 0x43, 0x00, 0x00, 0x00]
  | '[' => .bitmapped [0x00, 0x00, 0x7F, 0x41, 0x41, 0x00, 0x00, 0x00]
  | '\\' => .bitmapped [0x02, 0x04, 0x08, 0x10, 0x20, 0x00, 0x00, 0x00]
  | ']' => .bitmapped [0x41, 0x41, 0x7F, 0x00, 0x00, 0x00, 0x00, 0x00]
  | '^' => .bitmapped [0x04, 0x02, 0x01, 0x02, 0x04, 0x00, 0x00, 0x00]
  | '_' => .bitmapped [0x40, 0x40, 0x40, 0x40, 0x40, 0x00, 0x00, 0x00]
  | 'a' => .bitmapped [0x20, 0x54, 0x54, 0x54, 0x78, 0x00, 0x00, 0x00]
  | 'b' => .bitmapped [0x7F, 0x48, 0x44, 0x44, 0x38, 0x00, 0x00, 0x00]
  | 'c' => .bitmapped [0x38, 0x44, 0x44, 0x44, 0x20, 0x00, 0x00, 0x00]
  | 'd' => .bitmapped [0x38, 0x44, 0x44, 0x48, 0x7F, 0x00, 0x00, 0x00]
  | 'e' => .bitmapped [0x38, 0x54, 0x54, 0x54, 0x18, 0x00, 0x00, 0x00]
  | 'f' => .bitmapped [0x08, 0x7E, 0x09, 0x01, 0x02, 0x00, 0x00, 0x00]
  | 'g' => .bitmapped [0x08, 0x14, 0x54, 0x54, 0x3C, 0x00, 0x00, 0x00]
  | 'h' => .bitmapped [0x7F, 0x08, 0x04, 0x04, 0x78, 0x00, 0x00, 0x00]
  | 'i' => .bitmapped [0x00, 0x44, 0x7D, 0x40, 0x00, 0x00, 0x00, 0x00]
  | 'j' => .bitmapped [0x20, 0x40, 0x44, 0x3D, 0x00, 0x00, 0x00, 0x00]
  | 'k' => .bitmapped [0x00, 0x7F, 0x10, 0x28, 0x44, 0x00, 0x00, 0x00]
  | 'l' => .bitmapped [0x00, 0x41, 0x7F, 0x40, 0x00, 0x00, 0x00, 0x00]
  | 'm' => .bitmapped [0x7C, 0x04, 0x18, 0x04, 0x78, 0x00, 0x00, 0x00]
  | 'n' => .bitmapped [0x7C, 0x08, 0x04, 0x04, 0x78, 0x00, 0x00, 0x00]
  | 'o' => .bitmapped [0x38, 0x44, 0x44, 0x44, 0x38, 0x00, 0x00, 0x00]
  | 'p' => .bitmapped [0x7C, 0x14, 0x14, 0x14, 0x08, 0x00, 0x00, 0x00]
  | 'q' => .bitmapped [0x08, 0x14, 0x14, 0x18, 0x7C, 0x00, 0x00, 0x00]
  | 'r' => .bitmapped [0x7C, 0x08, 0x04, 0x04, 0x08, 0x00, 0x00, 0x00]
  | 's' => .bitmapped [0x48, 0x54, 0x54, 0x54, 0x20, 0x00, 0x00, 0x00]
  | 't' => .bitmapped [0x04, 0x3F, 0x44, 0x40, 0x20, 0x00, 0x00, 0x00]
  | 'u' => .bitmapped [0x3C, 0x40, 0x40, 0x20, 0x7C, 0x00, 0x00, 0x00]
  | 'v' => .bitmapped [0x1C, 0x20, 0x40, 0x20, 0x1C, 0x00, 0x00, 0x00]
  | 'w' => .bitmapped [0x3C, 0x40, 0x30, 0x40, 0x3C, 0x00, 0x00, 0x00]
  | 'x' => .bitmapped [0x00, 0x44, 0x28, 0x10, 0x28, 0x44, 0x00, 0x00]
  | 'y' => .bitmapped [0x0C, 0x50, 0x50, 0x50, 0x3C, 0x00, 0x00, 0x00]
  | 'z' => .bitmapped [0x44, 0x64, 0x54, 0x4C, 0x44, 0x00, 0x00, 0x00]
  | '\x60' => .bitmapped [0x00, 0x01, 0x02, 0x04, 0x00, 0x00, 0x00, 0x00]
  | '\x7b' => .bitmapped [0x00, 0x08, 0x36, 0x41, 0x00, 0x00, 0x00, 0x00]
  | '|' => .bitmapped [0x00, 0x00, 0x7F, 0x00, 0x00, 0x00, 0x00, 0x00]
  | '\x7d' => .bitmapped [0x00, 0x41, 0x36, 0x08, 0x00, 0x00, 0x00, 0x00]
  | _ => .bitmapped [0x00, 0x00, 0x00, 0x00, 0x00, 0x00, 0x00, 0x00]

/-- `TerminalMode::print_char` applied to a `char`: look the character up in
the font table and dispatch. -/
def TerminalMode.print_char (s : TerminalMode) (c : Char) : TerminalMode × Bool :=
  s.printBitmapChar (to_bitmap c)

/-- `fmt::Write::write_str` for `TerminalMode` (`src/mode/terminal.rs` lines
386-389): `s.chars().map(|c| self.print_char(c)).last()` runs `print_char` on
every character in order, discarding each per-character `Result`, and the
method then returns `Ok(())` unconditionally. -/
def TerminalMode.write_str (s : TerminalMode) (cs : List Char) : TerminalMode × Bool :=
  (cs.foldl (fun st c => (st.print_char c).1) s, true)

/-- The cursor bounds invariant of the spec: `0 <= col < width` and
`0 <= row < height` (the lower bounds are inherent to `Nat`/`u8`). -/
def Cursor.in_bounds (c : Cursor) : Prop :=
  c.col < c.width ∧ c.row < c.height

instance (c : Cursor) : Decidable c.in_bounds := by
  unfold Cursor.in_bounds; infer_instance

/-- Concrete 128x64 framebuffer state used by the C1 witness. -/
def fb64 : SSD1306 := SSD1306.new DisplaySize.display128x64

/-- Concrete 128x32 framebuffer state used for C3. -/
def fb32 : SSD1306 := SSD1306.new DisplaySize.display128x32

/-- Concrete cursor at column 15 of a 16x8 cell grid (C2 witness). -/
def curC2 : Cursor := { col := 15, row := 0, width := 16, height := 8 }

/-- Concrete terminal state holding `curC2` (C2 witness). -/
def termC2 : TerminalMode := { trace := [], cursor := some curC2 }

/-- Concrete cursor at (3, 4) of a 16x8 cell grid (C5 witness). -/
def curC5 : Cursor := { col := 3, row := 4, width := 16, height := 8 }

/-- Concrete terminal state holding `curC5` (C5 witness). -/
def termC5 : TerminalMode := { trace := [], cursor := some curC5 }

/-- Concrete cursor at (13, 2) of a 16x8 cell grid (C6 witness). -/
def curC6 : Cursor := { col := 13, row := 2, width := 16, height := 8 }

/-- Concrete terminal state holding `curC6` (C6 witness). -/
def termC6 : TerminalMode := { trace := [], cursor := some curC6 }

/-- Concrete terminal state with an uninitialized cursor (C4, C10). -/
def termNoCursor : TerminalMode := { trace := [], cursor := none }

/-- Concrete cursor for the C9 witness: requested cell (20, 3) will be clamped
on a 16x8 grid. -/
def curC9 : Cursor := { col := 0, row := 0, width := 16, height := 8 }

lemma new_wf (ds : DisplaySize) : (SSD1306.new ds).wf := by
  intro i
  show (0 : Nat) < 256
  norm_num

lemma testBit_255 (b : Nat) : (255 : Nat).testBit b = decide (b < 8) := by
  have h : (255 : Nat) = 2 ^ 8 - 1 := by norm_num
  rw [h, Nat.testBit_two_pow_sub_one]

/-- Shared bit-level description of a successful `set_pixel` write: the target
byte gets bit `y % 8` set (nonzero `value`) or cleared (`value = 0`), its
other bits survive, and every other byte survives. -/
lemma SSD1306.set_pixel_bits (s : SSD1306) (x y value : Nat) (hwf : s.wf)
    (hidx : s.pixel_index x y < 1024) :
    ∃ s2, s.set_pixel x y value = some s2 ∧ s2.display_size = s.display_size ∧
      (value ≠ 0 → (s2.buffer (s.pixel_index x y)).testBit (y % 8) = true) ∧
      (value = 0 → (s2.buffer (s.pixel_index x y)).testBit (y % 8) = false) ∧
      (∀ b, b ≠ y % 8 →
        (s2.buffer (s.pixel_index x y)).testBit b = (s.buffer (s.pixel_index x y)).testBit b) ∧
      (∀ i, i ≠ s.pixel_index x y → s2.buffer i = s.buffer i) := by
  have hk8 : y % 8 < 8 := Nat.mod_lt _ (by norm_num)
  refine ⟨{ s with buffer := fun i => if i = s.pixel_index x y then
      (if value = 0 then s.buffer (s.pixel_index x y) &&& (255 ^^^ 2 ^ (y % 8))
       else s.buffer (s.pixel_index x y) ||| 2 ^ (y % 8)) else s.buffer i },
    ?_, rfl, ?_, ?_, ?_, ?_⟩
  · simp only [SSD1306.set_pixel, if_pos hidx]
  · intro hv
    simp only [if_pos rfl, if_neg hv]
    simp [Nat.testBit_or, Nat.testBit_two_pow_self]
  · intro hv
    simp only [if_pos rfl, if_pos hv]
    simp [Nat.testBit_and, Nat.testBit_xor, testBit_255, hk8, Nat.testBit_two_pow_self]
  · intro b hb
    simp only [if_pos rfl]
    by_cases hv : value = 0
    · rw [if_pos hv]
      by_cases hb8 : b < 8
      · simp [Nat.testBit_and, Nat.testBit_xor, testBit_255, hb8,
          Nat.testBit_two_pow_of_ne (Ne.symm hb)]
      · have hbyte : (s.buffer (s.pixel_index x y)).testBit b = false := by
          refine Nat.testBit_lt_two_pow (lt_of_lt_of_le (hwf _) ?_)
          calc (256 : Nat) = 2 ^ 8 := by norm_num
          _ ≤ 2 ^ b := Nat.pow_le_pow_right (by norm_num) (Nat.not_lt.mp hb8)
        simp [Nat.testBit_and, hbyte]
    · rw [if_neg hv]
      simp [Nat.testBit_or, Nat.testBit_two_pow_of_ne (Ne.symm hb)]
  · intro i hi
    simp only [if_neg hi]

/-- C1: for every in-range coordinate of the active geometry, `set_pixel`
succeeds and sets (nonzero value) or clears (zero value) exactly bit `y % 8`
of buffer byte `(y / 8) * width + x`, leaving every other bit of that byte and
every other byte unchanged. -/
theorem c1_set_pixel_in_range (s : SSD1306) (x y value : Nat) (hwf : s.wf)
    (hx : x < (s.display_size.dimensions).1) (hy : y < (s.display_size.dimensions).2) :
    ∃ s2, s.set_pixel x y value = some s2 ∧ s2.display_size = s.display_size ∧
      (value ≠ 0 → (s2.buffer (s.pixel_index x y)).testBit (y % 8) = true) ∧
      (value = 0 → (s2.buffer (s.pixel_index x y)).testBit (y % 8) = false) ∧
      (∀ b, b ≠ y % 8 →
        (s2.buffer (s.pixel_index x y)).testBit b = (s.buffer (s.pixel_index x y)).testBit b) ∧
      (∀ i, i ≠ s.pixel_index x y → s2.buffer i = s.buffer i) := by
  refine s.set_pixel_bits x y value hwf ?_
  unfold SSD1306.pixel_index at *
  rcases s with ⟨buf, ds⟩
  cases ds <;> simp [DisplaySize.dimensions] at hx hy ⊢ <;> omega

/-- C1 witness: on a zeroed 128x64 buffer, `set_pixel(5, 10, 1)` targets byte
133 and sets its value from 0 to 4 (bit 2). -/
theorem c1_witness :
    fb64.wf ∧ 5 < (fb64.display_size.dimensions).1 ∧ 10 < (fb64.display_size.dimensions).2 ∧
    fb64.pixel_index 5 10 = 133 ∧
    (fb64.set_pixel 5 10 1).map (fun t => (t.buffer 133, t.buffer 132, t.buffer 134)) =
      some (4, 0, 0) ∧
    (∃ s2, fb64.set_pixel 5 10 1 = some s2 ∧ s2.display_size = fb64.display_size ∧
      ((1 : Nat) ≠ 0 → (s2.buffer (fb64.pixel_index 5 10)).testBit (10 % 8) = true) ∧
      ((1 : Nat) = 0 → (s2.buffer (fb64.pixel_index 5 10)).testBit (10 % 8) = false) ∧
      (∀ b, b ≠ 10 % 8 →
        (s2.buffer (fb64.pixel_index 5 10)).testBit b = (fb64.buffer (fb64.pixel_index 5 10)).testBit b) ∧
      (∀ i, i ≠ fb64.pixel_index 5 10 → s2.buffer i = fb64.buffer i)) :=
  ⟨new_wf _, by decide, by decide, by decide, by decide,
    c1_set_pixel_in_range fb64 5 10 1 (new_wf _) (by decide) (by decide)⟩

/-- C3 counterexample: on geometry 128x32, `(0, 32)` is out of range
(`y = height`), yet `set_pixel(0, 32, 1)` does not fail: it silently writes
bit 0 of byte 512 (beyond the active prefix but inside the backing array). -/
theorem c3_counterexample :
    (fb32.display_size.dimensions).2 ≤ 32 ∧
    (fb32.set_pixel 0 32 1).isSome = true ∧
    (fb32.set_pixel 0 32 1).map (fun t => t.buffer 512) = some 1 ∧
    fb32.buffer 512 = 0 :=
  ⟨by decide, by decide, by decide, by decide⟩

/-- C3 amended: `set_pixel` performs no bounds check, so an out-of-range
coordinate is never rejected with an error: when the computed byte index
`(y / 8) * width + x` still lands inside the 1024-byte backing array the bit
is silently written there, and when it lands beyond the array the operation
panics (out-of-bounds index) instead of returning an error. -/
theorem c3_set_pixel_out_of_range (s : SSD1306) (x y value : Nat) (hwf : s.wf)
    (_hout : (s.display_size.dimensions).1 ≤ x ∨ (s.display_size.dimensions).2 ≤ y) :
    (1024 ≤ s.pixel_index x y → s.set_pixel x y value = none) ∧
    (s.pixel_index x y < 1024 →
      ∃ s2, s.set_pixel x y value = some s2 ∧ s2.display_size = s.display_size ∧
        (value ≠ 0 → (s2.buffer (s.pixel_index x y)).testBit (y % 8) = true) ∧
        (value = 0 → (s2.buffer (s.pixel_index x y)).testBit (y % 8) = false) ∧
        (∀ b, b ≠ y % 8 →
          (s2.buffer (s.pixel_index x y)).testBit b = (s.buffer (s.pixel_index x y)).testBit b) ∧
        (∀ i, i ≠ s.pixel_index x y → s2.buffer i = s.buffer i)) := by
  constructor
  · intro h
    simp only [SSD1306.set_pixel, if_neg (Nat.not_lt.mpr h)]
  · intro h
    exact s.set_pixel_bits x y value hwf h

/-- C3 witness for the amended claim, at the out-of-range input `(0, 32)` on
geometry 128x32. -/
theorem c3_witness :
    fb32.wf ∧ ((fb32.display_size.dimensions).1 ≤ 0 ∨ (fb32.display_size.dimensions).2 ≤ 32) ∧
    ((1024 ≤ fb32.pixel_index 0 32 → fb32.set_pixel 0 32 1 = none) ∧
      (fb32.pixel_index 0 32 < 1024 →
        ∃ s2, fb32.set_pixel 0 32 1 = some s2 ∧ s2.display_size = fb32.display_size ∧
          ((1 : Nat) ≠ 0 → (s2.buffer (fb32.pixel_index 0 32)).testBit (32 % 8) = true) ∧
          ((1 : Nat) = 0 → (s2.buffer (fb32.pixel_index 0 32)).testBit (32 % 8) = false) ∧
          (∀ b, b ≠ 32 % 8 →
            (s2.buffer (fb32.pixel_index 0 32)).testBit b = (fb32.buffer (fb32.pixel_index 0 32)).testBit b) ∧
          (∀ i, i ≠ fb32.pixel_index 0 32 → s2.buffer i = fb32.buffer i))) :=
  ⟨new_wf _, Or.inr (by decide),
    c3_set_pixel_out_of_range fb32 0 32 1 (new_wf _) (Or.inr (by decide))⟩

/-- C8: for every supported geometry, `flush` issues exactly a column-address
command for `[0, width-1]`, a page-address command for `[0, height/8 - 1]`,
and one data block holding the first `width * height / 8` buffer bytes. -/
theorem c8_flush_traffic (s : SSD1306) :
    s.flush = [ Cmd.columnAddress 0 ((s.display_size.dimensions).1 - 1),
                Cmd.pageAddress 0 ((s.display_size.dimensions).2 / 8 - 1),
                Cmd.data ((List.range ((s.display_size.dimensions).1 *
                  (s.display_size.dimensions).2 / 8)).map s.buffer) ] := by
  rcases s with ⟨buf, ds⟩
  have h64 : (128 : Nat) * 64 / 8 = 1024 := by norm_num
  have h32 : (128 : Nat) * 32 / 8 = 512 := by norm_num
  cases ds <;>
    simp only [SSD1306.flush, SSD1306.flushData, DisplaySize.dimensions, pageOfRow, h64, h32]

/-- C2: one `advance()` sets the column to `(col + 1) mod width`; when the new
column is 0 it also sets the row to `(row + 1) mod height` and returns a wrap
event carrying the new row, which `advance_cursor` turns into a row-address
command for `new_row * 8`; otherwise no event is returned and the row is
unchanged.  Advancing from the last column of the last row returns to (0, 0). -/
theorem c2_advance (s : TerminalMode) (c : Cursor) (hc : s.cursor = some c)
    (hW : 1 ≤ c.width) (hH : 1 ≤ c.height) :
    ((c.advance).1.col = (c.col + 1) % c.width ∧
      (c.advance).1.width = c.width ∧ (c.advance).1.height = c.height) ∧
    ((c.col + 1) % c.width = 0 →
      (c.advance).1.row = (c.row + 1) % c.height ∧
      (c.advance).2 = some ((c.row + 1) % c.height) ∧
      s.advance_cursor =
        ({ trace := s.trace ++ [PCmd.setRow (((c.row + 1) % c.height) * 8)],
           cursor := some (c.advance).1 }, true)) ∧
    ((c.col + 1) % c.width ≠ 0 →
      (c.advance).1.row = c.row ∧ (c.advance).2 = none ∧
      s.advance_cursor = ({ s with cursor := some (c.advance).1 }, true)) ∧
    (c.col = c.width - 1 → (c.advance).1.col = 0 ∧
      (c.row = c.height - 1 → (c.advance).1.row = 0)) := by
  refine ⟨?_, ?_, ?_, ?_⟩
  · by_cases h : (c.col + 1) % c.width = 0 <;> simp [Cursor.advance, h]
  · intro h
    refine ⟨?_, ?_, ?_⟩ <;>
      simp [Cursor.advance, TerminalMode.advance_cursor, TerminalMode.propSetRow, hc, h]
  · intro h
    refine ⟨?_, ?_, ?_⟩ <;>
      simp [Cursor.advance, TerminalMode.advance_cursor, hc, h]
  · intro hcol
    have h : (c.col + 1) % c.width = 0 := by
      rw [hcol, Nat.sub_add_cancel hW, Nat.mod_self]
    refine ⟨by simp [Cursor.advance, h], ?_⟩
    intro hrow
    have h2 : (c.row + 1) % c.height = 0 := by
      rw [hrow, Nat.sub_add_cancel hH, Nat.mod_self]
    simp [Cursor.advance, h, h2]

/-- C2 witness: on a width-16 grid at (15, 0), the conclusion instantiates to
the spec's example: the cursor wraps to (0, 1) with a row-change event. -/
theorem c2_witness :
    termC2.cursor = some curC2 ∧ 1 ≤ curC2.width ∧ 1 ≤ curC2.height ∧
    (((curC2.advance).1.col = (curC2.col + 1) % curC2.width ∧
      (curC2.advance).1.width = curC2.width ∧ (curC2.advance).1.height = curC2.height) ∧
    ((curC2.col + 1) % curC2.width = 0 →
      (curC2.advance).1.row = (curC2.row + 1) % curC2.height ∧
      (curC2.advance).2 = some ((curC2.row + 1) % curC2.height) ∧
      termC2.advance_cursor =
        ({ trace := termC2.trace ++ [PCmd.setRow (((curC2.row + 1) % curC2.height) * 8)],
           cursor := some (curC2.advance).1 }, true)) ∧
    ((curC2.col + 1) % curC2.width ≠ 0 →
      (curC2.advance).1.row = curC2.row ∧ (curC2.advance).2 = none ∧
      termC2.advance_cursor = ({ termC2 with cursor := some (curC2.advance).1 }, true)) ∧
    (curC2.col = curC2.width - 1 → (curC2.advance).1.col = 0 ∧
      (curC2.row = curC2.height - 1 → (curC2.advance).1.row = 0))) :=
  ⟨rfl, by decide, by decide, c2_advance termC2 curC2 rfl (by decide) (by decide)⟩

/-- C9: the internal clamping helper `Cursor::set_position` is total (it never
fails) and leaves the cursor at `(min col (width-1), min row (height-1))`,
within bounds, while the public `TerminalMode::set_position` rejects the same
out-of-range input with an error. -/
theorem c9_cursor_set_position_clamps (c : Cursor) (col row : Nat)
    (hW : 1 ≤ c.width) (hH : 1 ≤ c.height) :
    (c.set_position col row).col = min col (c.width - 1) ∧
    (c.set_position col row).row = min row (c.height - 1) ∧
    (c.set_position col row).width = c.width ∧
    (c.set_position col row).height = c.height ∧
    (c.set_position col row).col < c.width ∧
    (c.set_position col row).row < c.height ∧
    (∀ s : TerminalMode, s.cursor = some c → (c.width ≤ col ∨ c.height ≤ row) →
      s.set_position col row = (s, false)) := by
  refine ⟨rfl, rfl, rfl, rfl, ?_, ?_, ?_⟩
  · show min col (c.width - 1) < c.width
    omega
  · show min row (c.height - 1) < c.height
    omega
  · intro s hs hor
    simp only [TerminalMode.set_position, hs, if_pos hor]

/-- C9 witness: requesting cell (20, 3) on a 16x8 grid clamps to (15, 3) while
the public entry point rejects it. -/
theorem c9_witness :
    1 ≤ curC9.width ∧ 1 ≤ curC9.height ∧
    ((curC9.set_position 20 3).col = min 20 (curC9.width - 1) ∧
     (curC9.set_position 20 3).row = min 3 (curC9.height - 1) ∧
     (curC9.set_position 20 3).width = curC9.width ∧
     (curC9.set_position 20 3).height = curC9.height ∧
     (curC9.set_position 20 3).col < curC9.width ∧
     (curC9.set_position 20 3).row < curC9.height ∧
     (∀ s : TerminalMode, s.cursor = some curC9 → (curC9.width ≤ 20 ∨ curC9.height ≤ 3) →
       s.set_position 20 3 = (s, false))) :=
  ⟨by decide, by decide, c9_cursor_set_position_clamps curC9 20 3 (by decide) (by decide)⟩

/-- C7: the bounds invariant `col < width ∧ row < height` holds after
construction (for a nonempty cell grid) and is preserved by `advance`, by the
internal clamping `Cursor::set_position`, and by the public
`TerminalMode::set_position`. -/
theorem c7_cursor_invariant :
    (∀ wp hp : Nat, 1 ≤ wp / 8 → 1 ≤ hp / 8 → (Cursor.new wp hp).in_bounds) ∧
    (∀ c : Cursor, c.in_bounds → ((c.advance).1.in_bounds ∧
      (c.advance).1.width = c.width ∧ (c.advance).1.height = c.height)) ∧
    (∀ (c : Cursor) (col row : Nat), c.in_bounds → (c.set_position col row).in_bounds) ∧
    (∀ (s : TerminalMode) (c : Cursor) (col row : Nat), s.cursor = some c → c.in_bounds →
      ∀ c2, (s.set_position col row).1.cursor = some c2 → c2.in_bounds) := by
  refine ⟨?_, ?_, ?_, ?_⟩
  · intro wp hp h1 h2
    exact ⟨h1, h2⟩
  · intro c hc
    have hw : 0 < c.width := Nat.lt_of_le_of_lt (Nat.zero_le _) hc.1
    have hh : 0 < c.height := Nat.lt_of_le_of_lt (Nat.zero_le _) hc.2
    unfold Cursor.advance Cursor.in_bounds
    by_cases h : (c.col + 1) % c.width = 0 <;> simp [h]
    · exact ⟨hw, Nat.mod_lt _ hh⟩
    · exact ⟨Nat.mod_lt _ hw, hc.2⟩
  · intro c col row hc
    have h1 := hc.1
    have h2 := hc.2
    constructor
    · show min col (c.width - 1) < c.width
      omega
    · show min row (c.height - 1) < c.height
      omega
  · intro s c col row hs hc c2 h2
    simp only [TerminalMode.set_position, hs] at h2
    by_cases hb : c.width ≤ col ∨ c.height ≤ row
    · rw [if_pos hb] at h2
      rw [hs] at h2
      cases Option.some.inj h2
      exact hc
    · rw [if_neg hb] at h2
      simp only [TerminalMode.propSetColumn, TerminalMode.propSetRow] at h2
      cases Option.some.inj h2
      have h1 := hc.1
      have h3 := hc.2
      constructor
      · show min col (c.width - 1) < c.width
        omega
      · show min row (c.height - 1) < c.height
        omega

/-- C7 witness: applying the invariant theorem at a fresh 128x64 cursor and
along an `advance` from (15, 7) on the 16x8 grid. -/
theorem c7_witness :
    (Cursor.new 128 64).in_bounds ∧
    ((Cursor.advance { col := 15, row := 7, width := 16, height := 8 }).1.in_bounds ∧
      (Cursor.advance { col := 15, row := 7, width := 16, height := 8 }).1.width = 16 ∧
      (Cursor.advance { col := 15, row := 7, width := 16, height := 8 }).1.height = 8) ∧
    (Cursor.set_position { col := 15, row := 7, width := 16, height := 8 } 99 99).in_bounds :=
  ⟨c7_cursor_invariant.1 128 64 (by decide) (by decide),
    c7_cursor_invariant.2.1 { col := 15, row := 7, width := 16, height := 8 } (by decide),
    c7_cursor_invariant.2.2.1 { col := 15, row := 7, width := 16, height := 8 } 99 99 (by decide)⟩

/-- C5: the public `TerminalMode::set_position` rejects `col >= width` or
`row >= height` with an error, no device write and an unchanged state; in
range, it issues column/row pointer commands for `col*8`/`row*8` and moves the
cursor to exactly (col, row). -/
theorem c5_terminal_set_position (s : TerminalMode) (c : Cursor) (hc : s.cursor = some c)
    (col row : Nat) :
    ((c.width ≤ col ∨ c.height ≤ row) → s.set_position col row = (s, false)) ∧
    (col < c.width → row < c.height →
      s.set_position col row =
        ({ trace := s.trace ++ [PCmd.setColumn (col * 8), PCmd.setRow (row * 8)],
           cursor := some { c with col := col, row := row } }, true)) := by
  constructor
  · intro hb
    simp only [TerminalMode.set_position, hc, if_pos hb]
  · intro h1 h2
    have hb : ¬(c.width ≤ col ∨ c.height ≤ row) := by omega
    simp only [TerminalMode.set_position, hc, if_neg hb,
      TerminalMode.propSetColumn, TerminalMode.propSetRow]
    have hcl : c.set_position col row = { c with col := col, row := row } := by
      unfold Cursor.set_position
      congr 1 <;> omega
    rw [hcl]
    simp [List.append_assoc]

/-- C5 witness: on the 16x8 grid, `set_position(16, 0)` and `set_position(0,
8)` fail leaving the state untouched; `set_position(2, 5)` issues the two
pointer commands and moves the cursor. -/
theorem c5_witness :
    termC5.cursor = some curC5 ∧
    TerminalMode.set_position termC5 16 0 = (termC5, false) ∧
    TerminalMode.set_position termC5 0 8 = (termC5, false) ∧
    TerminalMode.set_position termC5 2 5 =
      ({ trace := termC5.trace ++ [PCmd.setColumn 16, PCmd.setRow 40],
         cursor := some { curC5 with col := 2, row := 5 } }, true) :=
  ⟨rfl, (c5_terminal_set_position termC5 curC5 rfl 16 0).1 (Or.inl (by decide)),
    (c5_terminal_set_position termC5 curC5 rfl 0 8).1 (Or.inr (by decide)),
    (c5_terminal_set_position termC5 curC5 rfl 2 5).2 (by decide) (by decide)⟩

/-- C10: printing a bitmapped character with an uninitialized cursor first
sends the 8 glyph bytes to the device and only then fails with the
cursor-not-initialized error: the device write precedes the error. -/
theorem c10_print_char_uninitialized (s : TerminalMode) (hc : s.cursor = none)
    (ch : Char) (bytes : List Nat) (hb : to_bitmap ch = BitmapCharacter.bitmapped bytes) :
    s.print_char ch = ({ s with trace := s.trace ++ [PCmd.draw bytes] }, false) := by
  simp only [TerminalMode.print_char, hb, TerminalMode.printBitmapChar,
    TerminalMode.propDraw, TerminalMode.advance_cursor, hc]

/-- C10 witness: printing `'A'` with no cursor appends the glyph draw to the
trace and reports failure. -/
theorem c10_witness :
    termNoCursor.cursor = none ∧
    to_bitmap 'A' = BitmapCharacter.bitmapped [0x7E, 0x11, 0x11, 0x11, 0x7E, 0x00, 0x00, 0x00] ∧
    TerminalMode.print_char termNoCursor 'A' =
      ({ termNoCursor with
          trace := termNoCursor.trace ++
            [PCmd.draw [0x7E, 0x11, 0x11, 0x11, 0x7E, 0x00, 0x00, 0x00]] }, false) :=
  ⟨rfl, by decide, c10_print_char_uninitialized termNoCursor rfl 'A' _ (by decide)⟩

/-- C4 counterexample: with an uninitialized cursor, `print_char('\n')` fails,
yet `write_str("\n")` still returns success — the per-character error is
silently swallowed instead of being returned to the caller. -/
theorem c4_counterexample :
    (TerminalMode.print_char termNoCursor '\n').2 = false ∧
    (TerminalMode.write_str termNoCursor ['\n']).2 = true ∧
    TerminalMode.write_str termNoCursor ['\n'] = (termNoCursor, true) :=
  ⟨by decide, by decide, by decide⟩

/-- C4 amended: `write_str` runs `print_char` on every character in order,
threading the state, but discards each character's result and returns
`Ok(())` unconditionally; `print_char`'s own errors are returned to its
caller, but `write_str` never propagates them. -/
theorem c4_write_str_swallows_errors (s : TerminalMode) (c : Char) (cs : List Char) :
    (s.write_str (c :: cs)).1 = (((s.print_char c).1).write_str cs).1 ∧
    (s.write_str cs).2 = true := by
  constructor
  · simp [TerminalMode.write_str]
  · rfl

/-- Loop invariant of the `Newline` arm: drawing `n` blanks from a cursor with
`col + n = width` emits `n` blank glyph draws, then exactly one row-address
command at the wrap, and parks the cursor at column 0 of the next row. -/
lemma drawBlanks_spec (n : Nat) : ∀ (s : TerminalMode) (c : Cursor),
    s.cursor = some c → c.col + n = c.width → 1 ≤ n → 1 ≤ c.height →
    s.drawBlanks n =
      ({ trace := s.trace ++
          List.replicate n (PCmd.draw [0x00, 0x00, 0x00, 0x00, 0x00, 0x00, 0x00, 0x00]) ++
          [PCmd.setRow (((c.row + 1) % c.height) * 8)],
         cursor := some { c with col := 0, row := (c.row + 1) % c.height } }, true) := by
  induction n with
  | zero =>
    intro s c _ _ h1 _
    omega
  | succ n ih =>
    intro s c hc hw h1 hh
    by_cases hn : n = 0
    · subst hn
      have hcw : c.col + 1 = c.width := by omega
      have hwrap : (c.col + 1) % c.width = 0 := by
        rw [hcw]
        exact Nat.mod_self _
      simp [TerminalMode.drawBlanks, TerminalMode.propDraw, TerminalMode.advance_cursor,
        Cursor.advance, hc, hwrap, TerminalMode.propSetRow, List.replicate_succ]
    · have hn1 : 1 ≤ n := by omega
      have hmod : (c.col + 1) % c.width = c.col + 1 := Nat.mod_eq_of_lt (by omega)
      have step : s.drawBlanks (n + 1) =
          ({ trace := s.trace ++ [PCmd.draw [0x00, 0x00, 0x00, 0x00, 0x00, 0x00, 0x00, 0x00]],
             cursor := some { c with col := c.col + 1 } } : TerminalMode).drawBlanks n := by
        simp [TerminalMode.drawBlanks, TerminalMode.propDraw, TerminalMode.advance_cursor,
          Cursor.advance, hc, hmod]
      rw [step, ih _ { c with col := c.col + 1 } rfl (by show c.col + 1 + n = c.width; omega) hn1 hh]
      simp [List.replicate_succ, List.append_assoc]

/-- C6: printing a newline with the cursor at column `c` of a width-`W` row
draws exactly `W - c` blank glyphs through the normal advance path (ending
with the single row-address command the wrap emits) and leaves the cursor at
column 0 of the next row, wrapping modulo the grid height. -/
theorem c6_newline (s : TerminalMode) (c : Cursor) (hc : s.cursor = some c)
    (hcol : c.col < c.width) (hH : 1 ≤ c.height) :
    s.print_char '\n' =
      ({ trace := s.trace ++
          List.replicate (c.width - c.col)
            (PCmd.draw [0x00, 0x00, 0x00, 0x00, 0x00, 0x00, 0x00, 0x00]) ++
          [PCmd.setRow (((c.row + 1) % c.height) * 8)],
         cursor := some { c with col := 0, row := (c.row + 1) % c.height } }, true) := by
  have hb : to_bitmap '\n' = BitmapCharacter.newline := by decide
  have h1 : 1 ≤ c.width - c.col := by omega
  have h2 : c.col + (c.width - c.col) = c.width := by omega
  have hd : s.print_char '\n' = s.drawBlanks (c.width - c.col) := by
    simp only [TerminalMode.print_char, hb, TerminalMode.printBitmapChar, hc,
      Cursor.get_remaining_columns_in_line]
  rw [hd, drawBlanks_spec _ _ _ hc h2 h1 hH]

/-- C6 witness: at column 13 of the 16x8 grid, the newline draws 3 blank
glyphs and parks the cursor at (0, 3). -/
theorem c6_witness :
    termC6.cursor = some curC6 ∧ curC6.col < curC6.width ∧ 1 ≤ curC6.height ∧
    TerminalMode.print_char termC6 '\n' =
      ({ trace := termC6.trace ++
          List.replicate (curC6.width - curC6.col)
            (PCmd.draw [0x00, 0x00, 0x00, 0x00, 0x00, 0x00, 0x00, 0x00]) ++
          [PCmd.setRow (((curC6.row + 1) % curC6.height) * 8)],
         cursor := some { curC6 with col := 0, row := (curC6.row + 1) % curC6.height } }, true) :=
  ⟨rfl, by decide, by decide, c6_newline termC6 curC6 rfl (by decide) (by decide)⟩
